import Mathlib

/-!
Verification of the OMPython command-execution and session layer
(`OMPython/model_execution.py`, `OMPython/OMCSession.py`).

The Python code is shallowly embedded: pure logic is translated to Lean
functions, the mutable object state (`ModelExecutionCmd._args`,
`ModelExecutionCmd._arg_override`, `OMCSessionBase._omc_cache`,
`ModelExecutionData` fields) is threaded explicitly, and effectful
boundaries (the `subprocess` module, the ZMQ socket, `time.sleep`) are
parameters describing the outcome of each external call.  Python `dict`s
are modelled as association lists with insertion-order semantics
(update-in-place keeps the position of a key, new keys are appended),
which matches CPython dictionaries for the operations used here.
-/

set_option autoImplicit false

namespace OMPython

/-! ## Python string and dict primitives -/

/-- The ASCII whitespace characters stripped by Python `str.strip()`
(space, tab, newline, carriage return, vertical tab, form feed).
Non-ASCII whitespace is not modelled; no input in this development uses it. -/
def pyIsSpace (c : Char) : Bool :=
  c == ' ' || c == '\t' || c == '\n' || c == '\r' || c == Char.ofNat 11 || c == Char.ofNat 12

/-- Python `str.strip()`: remove leading and trailing whitespace. -/
def pyStrip (s : String) : String :=
  String.mk (((s.data.dropWhile pyIsSpace).reverse.dropWhile pyIsSpace).reverse)

/-- Lookup in a Python dict modelled as an association list
(`d[k]` / `d.get(k)`): first entry with the given key. -/
def pyDictGet {α β : Type} [DecidableEq α] (m : List (α × β)) (k : α) : Option β :=
  match m with
  | [] => Option.none
  | (k1, v1) :: rest => if k1 = k then some v1 else pyDictGet rest k

/-- Membership test for a Python dict modelled as an association list (`k in d`). -/
def pyDictMem {α β : Type} [DecidableEq α] (m : List (α × β)) (k : α) : Bool :=
  match m with
  | [] => false
  | (k1, _) :: rest => if k1 = k then true else pyDictMem rest k

/-- Python dict assignment `d[k] = v`: update the entry in place if the key is
present (keeping its position), otherwise append the new entry at the end. -/
def pyDictSet {α β : Type} [DecidableEq α] (m : List (α × β)) (k : α) (v : β) : List (α × β) :=
  match m with
  | [] => [(k, v)]
  | (k1, v1) :: rest => if k1 = k then (k, v) :: rest else (k1, v1) :: pyDictSet rest k v

/-- Python dict deletion `del d[k]`: remove the entry with the given key. -/
def pyDictDelete {α β : Type} [DecidableEq α] (m : List (α × β)) (k : α) : List (α × β) :=
  match m with
  | [] => []
  | (k1, v1) :: rest => if k1 = k then rest else (k1, v1) :: pyDictDelete rest k

/-- Lexicographic less-or-equal on character lists by code point, the order
Python uses to compare strings. -/
def pyCharListLe : List Char → List Char → Bool
  | [], _ => true
  | _ :: _, [] => false
  | a :: as, b :: bs =>
    if a.toNat < b.toNat then true
    else if b.toNat < a.toNat then false
    else pyCharListLe as bs

/-- Python string comparison `a <= b` (code-point lexicographic). -/
def pyStrLe (a b : String) : Bool := pyCharListLe a.data b.data

/-- Insert a string into an already sorted list, keeping earlier elements
first among equals (stability, as Python `sorted` guarantees). -/
def pyInsertSorted (x : String) : List String → List String
  | [] => [x]
  | y :: ys => if pyStrLe x y then x :: y :: ys else y :: pyInsertSorted x ys

/-- Python `sorted` on a list of strings: stable ascending sort by
code-point order. -/
def pySorted : List String → List String
  | [] => []
  | x :: xs => pyInsertSorted x (pySorted xs)

/-- A single quote character, used by the model of Python `repr`. -/
def pySQuote : String := String.mk [Char.ofNat 39]

/-- Python `repr` of a list of strings, `['a', 'b']`.  Escaping of special
characters inside the strings is not modelled (no claim depends on it). -/
def pyReprStrList (l : List String) : String :=
  "[" ++ String.intercalate ", " (l.map (fun s => pySQuote ++ s ++ pySQuote)) ++ "]"

/-! ## Embedding of `OMPython/model_execution.py` -/

/-- The Python scalar values that can reach `ModelExecutionCmd.arg_set` as a
top-level value or as an `override` sub-key / sub-value.  `other` stands for a
value of any type not otherwise handled (a list, an object, ...), which the
code rejects.  Numbers are modelled by `Int`; the code treats every
`numbers.Number` uniformly via `str(...)`, and no claim involves floats.
Note that in Python `bool` is itself a `numbers.Number`; the embedding keeps
the two apart and mirrors the `isinstance` dispatch order of the source. -/
inductive PyScalar where
  | none
  | str (s : String)
  | int (n : Int)
  | bool (b : Bool)
  | other
deriving DecidableEq

/-- A value passed to `arg_set`: either a scalar or a Python dict
(for the `override` argument).  Dict keys are arbitrary Python values in the
source (they are type-checked inside the loop), hence `PyScalar` keys. -/
inductive PyArgVal where
  | scalar (v : PyScalar)
  | dict (items : List (PyScalar × PyScalar))
deriving DecidableEq

/-- A number-or-boolean literal as recognised by the `ast.literal_eval` probe
in `override2str`. -/
inductive PyLit where
  | int (n : Int)
  | bool (b : Bool)
deriving DecidableEq

/-- Accumulate the decimal value of a digit run; fails on a non-digit. -/
def pyDigitsValAux : List Char → Nat → Option Nat
  | [], acc => some acc
  | c :: cs, acc => if c.isDigit then pyDigitsValAux cs (acc * 10 + (c.toNat - 48)) else Option.none

/-- The integer-literal fragment of Python `ast.literal_eval`: optional sign
followed by a nonempty digit run, with surrounding whitespace allowed. -/
def parsePyIntLiteral (s : String) : Option Int :=
  match (pyStrip s).data with
  | [] => Option.none
  | c :: cs =>
    if c = '-' then
      match cs with
      | [] => Option.none
      | _ => (pyDigitsValAux cs 0).map (fun n => -(n : Int))
    else if c = '+' then
      match cs with
      | [] => Option.none
      | _ => (pyDigitsValAux cs 0).map (fun n => (n : Int))
    else (pyDigitsValAux (c :: cs) 0).map (fun n => (n : Int))

/-- The `ast.literal_eval` probe of `override2str` restricted to the outcomes
the code keeps: the evaluated literal when it is a number or a boolean,
`Option.none` otherwise (evaluation failure, or a literal of another type,
both of which leave the string untouched).  Floating-point literals are not
modelled; no claim involves them. -/
def pyLiteralEvalNumOrBool (s : String) : Option PyLit :=
  let t := pyStrip s
  if t = "True" then some (PyLit.bool true)
  else if t = "False" then some (PyLit.bool false)
  else (parsePyIntLiteral s).map PyLit.int

/-- `override2str(orkey, orval)` from `ModelExecutionCmd.arg_set`: convert a
value for `override` to a `key=value` string.  A string value is first probed
for a number/boolean literal; booleans render as `true`/`false`, numbers via
`str`, and remaining strings are stripped.  The `else` branch raises
`ModelExecutionException`, modelled as `Except.error`. -/
def override2str (orkey : String) (orval : PyScalar) : Except String String :=
  let orval1 : PyScalar :=
    match orval with
    | PyScalar.str s =>
      match pyLiteralEvalNumOrBool s with
      | some (PyLit.int n) => PyScalar.int n
      | some (PyLit.bool b) => PyScalar.bool b
      | Option.none => PyScalar.str s
    | v => v
  match orval1 with
  | PyScalar.str s => Except.ok (orkey ++ "=" ++ pyStrip s)
  | PyScalar.bool b => Except.ok (orkey ++ "=" ++ (if b then "true" else "false"))
  | PyScalar.int n => Except.ok (orkey ++ "=" ++ toString n)
  | PyScalar.none => Except.error ("Invalid value for override key " ++ orkey)
  | PyScalar.other => Except.error ("Invalid value for override key " ++ orkey)

/-- One iteration of the `for okey, oval in val.items()` loop in `arg_set`:
given the current `_arg_override` dict, process one sub-entry.  Returns the
dict after the iteration together with `some` error message when the
iteration raises (an exception leaves the updates of earlier iterations in
place, which is why the partially updated dict is returned even on error). -/
def processOverrideItem (om : List (String × String)) (okey oval : PyScalar) :
    List (String × String) × Option String :=
  match okey with
  | PyScalar.str k =>
    match oval with
    | PyScalar.other =>
      (om, some ("Invalid input for override." ++ k))
    | PyScalar.none =>
      -- `if okey in self._arg_override: if oval is None: del ...; continue`
      (if pyDictMem om k then pyDictDelete om k else om, Option.none)
    | v =>
      -- `if oval is not None: self._arg_override[okey] = override2str(...)`
      match override2str k v with
      | Except.ok s => (pyDictSet om k s, Option.none)
      | Except.error e => (om, some e)
  | _ => (om, some "Invalid key for argument override")

/-- The whole `for okey, oval in val.items()` loop: fold over the dict items
in insertion order, stopping at the first raising iteration. -/
def processOverrideItems (om : List (String × String)) :
    List (PyScalar × PyScalar) → List (String × String) × Option String
  | [] => (om, Option.none)
  | (okey, oval) :: rest =>
    match processOverrideItem om okey oval with
    | (om1, Option.none) => processOverrideItems om1 rest
    | (om1, some e) => (om1, some e)

/-- The mutable state of a `ModelExecutionCmd` object relevant to argument
handling: `_args` (argument key to optional value) and `_arg_override`
(override variable name to `name=value` string), both Python dicts. -/
structure ModelExecutionCmdState where
  args : List (String × Option String)
  arg_override : List (String × String)
deriving DecidableEq

/-- `ModelExecutionCmd.arg_set(key, val)`.  The result is the object state
after the call together with `some` error message when the call raises
`ModelExecutionException` (state changes made before the raise persist, as
they do on the Python object). -/
def arg_set (st : ModelExecutionCmdState) (key : PyScalar) (val : PyArgVal) :
    ModelExecutionCmdState × Option String :=
  match key with
  | PyScalar.str k0 =>
    let k := pyStrip k0
    match val with
    | PyArgVal.dict items =>
      if k = "override" then
        match processOverrideItems st.arg_override items with
        | (om, Option.none) =>
          let argval := String.intercalate "," (pySorted (om.map (fun e => e.2)))
          ({ args := pyDictSet st.args k (some argval), arg_override := om }, Option.none)
        | (om, some e) => ({ st with arg_override := om }, some e)
      else (st, some "Dictionary input only possible for key override!")
    | PyArgVal.scalar PyScalar.none =>
      ({ st with args := pyDictSet st.args k Option.none }, Option.none)
    | PyArgVal.scalar (PyScalar.str s) =>
      ({ st with args := pyDictSet st.args k (some (pyStrip s)) }, Option.none)
    | PyArgVal.scalar (PyScalar.int n) =>
      ({ st with args := pyDictSet st.args k (some (toString n)) }, Option.none)
    | PyArgVal.scalar (PyScalar.bool b) =>
      -- a bool reaches the `numbers.Number` branch in Python: str(True) / str(False)
      ({ st with args := pyDictSet st.args k (some (if b then "True" else "False")) }, Option.none)
    | PyArgVal.scalar PyScalar.other =>
      (st, some ("Invalid argument value for " ++ k))
  | _ => (st, some "Invalid argument key")

/-- `ModelExecutionCmd.args_set(args)`: call `arg_set` for each entry of the
dict in insertion order; an exception stops the loop and propagates. -/
def args_set (st : ModelExecutionCmdState) :
    List (PyScalar × PyArgVal) → ModelExecutionCmdState × Option String
  | [] => (st, Option.none)
  | (key, val) :: rest =>
    match arg_set st key val with
    | (st1, Option.none) => args_set st1 rest
    | (st1, some e) => (st1, some e)

/-- `ModelExecutionCmd.arg_get(key)`: the stored value, or absent. -/
def arg_get (st : ModelExecutionCmdState) (key : String) : Option (Option String) :=
  pyDictGet st.args key

/-- `ModelExecutionCmd.get_cmd_args()`: iterate the argument keys in sorted
order; a key stored with `None` emits `-key`, otherwise `-key=value`. -/
def get_cmd_args (st : ModelExecutionCmdState) : List String :=
  (pySorted (st.args.map (fun e => e.1))).map (fun key =>
    match pyDictGet st.args key with
    | some (some v) => "-" ++ key ++ "=" ++ v
    | _ => "-" ++ key)

/-- The `ModelExecutionData` dataclass.  `cmd_prefix_list` is the field named
`cmd_` + `prefix` in the source (renamed here for Lean identifier hygiene);
Python floats (`cmd_timeout`) are modelled as rationals. -/
structure ModelExecutionData where
  cmd_path : String
  cmd_model_name : String
  cmd_prefix_list : List String
  cmd_model_executable : String
  cmd_args : List String
  cmd_result_file : String
  cmd_timeout : Rat
  cmd_library_path : Option String := Option.none
  cmd_cwd_local : Option String := Option.none
deriving DecidableEq

/-- `ModelExecutionData.get_cmd()`.  The source binds `cmdl` to the
`cmd_prefix_list` list object and extends it with `+=` (an in-place
`list.extend`), so the call both returns the full command line and leaves the
object's field aliased to that same list.  The embedding returns the command
line together with the object state after the call. -/
def ModelExecutionData.get_cmd (d : ModelExecutionData) :
    List String × ModelExecutionData :=
  let cmdl := d.cmd_prefix_list ++ [d.cmd_model_executable] ++ d.cmd_args
  (cmdl, { d with cmd_prefix_list := cmdl })

/-- The outcome of the `subprocess.run(...)` call inside
`ModelExecutionData.run`, as seen by the caller with `check=True`:
the process completed (any exit code, captured stdout/stderr), the timeout
expired (`subprocess.TimeoutExpired`), or the executable could not be
spawned at all (`FileNotFoundError`, the CPython behaviour when the
executable file does not exist). -/
inductive SubprocessResult where
  | completed (returncode : Int) (stdout stderr : String)
  | timeoutExpired (msg : String)
  | fileNotFound (msg : String)
deriving DecidableEq

/-- What `ModelExecutionData.run` does: return the exit code, raise
`ModelExecutionException` with a message, or let an exception of another
class (carried with its Python class name) propagate uncaught. -/
inductive RunOutcome where
  | ok (returncode : Int)
  | modelExecutionException (msg : String)
  | uncaughtError (excClass msg : String)
deriving DecidableEq

/-- `Bool` test for the `modelExecutionException` outcome. -/
def RunOutcome.isModelExecutionException : RunOutcome → Bool
  | RunOutcome.modelExecutionException _ => true
  | _ => false

/-- `str(subprocess.CalledProcessError(...))` for a positive exit code (the
negative-signal wording variant is not modelled; no claim involves it). -/
def calledProcessErrorStr (cmd : List String) (rc : Int) : String :=
  "Command " ++ pyReprStrList cmd ++ " returned non-zero exit status " ++ toString rc ++ "."

/-- `ModelExecutionData.run()`.  `subprocess.run` is replaced by its outcome
`proc`; with `check=True` a nonzero exit raises `subprocess.CalledProcessError`
before the stdout/stderr handling runs.  On completion with exit code 0 the
stripped stderr is checked: nonempty stderr raises `ModelExecutionException`
carrying it.  `TimeoutExpired` and `CalledProcessError` are caught and
re-raised as `ModelExecutionException`; a spawn failure (`FileNotFoundError`)
is not among the `except` clauses and propagates unchanged.  The returned
state is the object after the call (mutated through `get_cmd`, see above);
environment handling (`PATH` prepending) has no observable effect in this
model and is omitted. -/
def ModelExecutionData.run (d : ModelExecutionData) (proc : SubprocessResult) :
    RunOutcome × ModelExecutionData :=
  let c := d.get_cmd
  match proc with
  | SubprocessResult.completed rc _ err =>
    if rc = 0 then
      let stderr := pyStrip err
      if stderr ≠ "" then
        (RunOutcome.modelExecutionException
          ("Error running model executable " ++ pyReprStrList c.1 ++ ": " ++ stderr), c.2)
      else
        (RunOutcome.ok rc, c.2)
    else
      (RunOutcome.modelExecutionException
        ("Error running model executable " ++ pyReprStrList c.1 ++ ": " ++
          calledProcessErrorStr c.1 rc), c.2)
  | SubprocessResult.timeoutExpired m =>
    (RunOutcome.modelExecutionException
      ("Timeout running model executable " ++ pyReprStrList c.1 ++ ": " ++ m), c.2)
  | SubprocessResult.fileNotFound m =>
    (RunOutcome.uncaughtError "FileNotFoundError" m, c.2)

/-! ## Embedding of `OMPython/OMCSession.py` -/

/-- Python truthiness of the `opt` parameter of `OMCSessionBase.ask`
(`None` and the empty string are falsy). -/
def optTruthy : Option String → Bool
  | Option.none => false
  | some s => s ≠ ""

/-- The expression built by `ask`: `f-string question(opt)` when `opt` is
truthy, plain `question` otherwise. -/
def buildExpression (question : String) (opt : Option String) : String :=
  match opt with
  | some s => if s ≠ "" then question ++ "(" ++ s ++ ")" else question
  | Option.none => question

/-- The cache key used by `ask`: the tuple `(question, opt, parsed)`. -/
abbrev AskKey := String × Option String × Bool

/-- Result of one `ask` call: the returned value or the re-raised
`OMCSessionException`, the cache after the call, and whether
`sendExpression` (the transport) was invoked. -/
structure AskResult (α : Type) where
  result : Except String α
  cache : List (AskKey × α)
  transportUsed : Bool

/-- `OMCSessionBase.ask(question, opt, parsed)`.  The transport is the
oracle `sendExpr expression parsed`; an `OMCSessionException` from it is
logged and re-raised (no cache update); otherwise the response is stored
under the key tuple and returned.  In a read-only session every question
except `getErrorString` is first looked up in the cache. -/
def ask {α : Type} (readonly : Bool) (cache : List (AskKey × α))
    (sendExpr : String → Bool → Except String α)
    (question : String) (opt : Option String) (parsed : Bool) : AskResult α :=
  let p : AskKey := (question, opt, parsed)
  let hit : Option α :=
    if readonly && question ≠ "getErrorString" then pyDictGet cache p else Option.none
  match hit with
  | some v => { result := Except.ok v, cache := cache, transportUsed := false }
  | Option.none =>
    match sendExpr (buildExpression question opt) parsed with
    | Except.error e => { result := Except.error e, cache := cache, transportUsed := true }
    | Except.ok res =>
      { result := Except.ok res, cache := pyDictSet cache p res, transportUsed := true }

/-- The state of the non-blocking send retry loop of
`OMCSessionZMQ.sendExpression` when it finishes: whether it raised
`OMCSessionException`, how many `send_string` attempts were made, how many
`time.sleep` calls happened, and the total time slept (each sleep is
`timeout / 50`). -/
structure SendLoopOut where
  raised : Bool
  sends : Nat
  sleeps : Nat
  sleepTime : Rat
deriving DecidableEq

/-- The `while True` send retry loop of `sendExpression`.  `ready n` tells
whether the `n`-th (0-based) `send_string` attempt succeeds or raises the
transient `zmq.error.Again`.  The loop variable `attempts` of the source
(incremented after each failed send, loop raises once `attempts >= 50`) is
represented by the fuel `50 - attempts`, so the loop is structurally
recursive; the initial call uses fuel `50`.  On a failed attempt with fuel
left the loop sleeps `timeout / 50` and retries. -/
def sendRetryLoop (ready : Nat → Bool) (timeout : Rat)
    (sends sleeps : Nat) (sleepTime : Rat) : Nat → SendLoopOut
  | 0 => { raised := false, sends := sends, sleeps := sleeps, sleepTime := sleepTime }
  | fuel + 1 =>
    if ready sends then
      { raised := false, sends := sends + 1, sleeps := sleeps, sleepTime := sleepTime }
    else if fuel = 0 then
      { raised := true, sends := sends + 1, sleeps := sleeps, sleepTime := sleepTime }
    else
      sendRetryLoop ready timeout (sends + 1) (sleeps + 1) (sleepTime + timeout / 50) fuel

/-- Observable outcome of the send phase of `sendExpression`: the immediate
`OMCSessionException` when the engine process has exited, the
`OMCSessionException` raised after the retry budget is exhausted (a
"TransportError" carrying the log), or a successful send that proceeds to
the receive phase. -/
inductive SendExprOutcome where
  | processExited
  | transportError (sends sleeps : Nat) (sleepTime : Rat)
  | sent (sends sleeps : Nat) (sleepTime : Rat)
deriving DecidableEq

/-- The send phase of `OMCSessionZMQ.sendExpression(command)`: first the
liveness poll of the engine process (`procAlive` is `poll() is None`), then
the bounded retry loop with budget 50. -/
def sendExpressionSendPhase (procAlive : Bool) (ready : Nat → Bool) (timeout : Rat) :
    SendExprOutcome :=
  if procAlive then
    let r := sendRetryLoop ready timeout 0 0 0 50
    if r.raised then SendExprOutcome.transportError r.sends r.sleeps r.sleepTime
    else SendExprOutcome.sent r.sends r.sleeps r.sleepTime
  else SendExprOutcome.processExited

/-! ## Helper lemmas -/

/-- Setting the same dict key twice keeps only the second value. -/
theorem pyDictSet_pyDictSet {α β : Type} [DecidableEq α]
    (m : List (α × β)) (k : α) (x y : β) :
    pyDictSet (pyDictSet m k x) k y = pyDictSet m k y := by
  induction m with
  | nil => simp [pyDictSet]
  | cons hd tl ih =>
    obtain ⟨k1, v1⟩ := hd
    by_cases hk : k1 = k
    · subst hk
      simp [pyDictSet]
    · simp [pyDictSet, hk, ih]

/-- A key just set is a member of the dict. -/
theorem pyDictMem_pyDictSet {α β : Type} [DecidableEq α]
    (m : List (α × β)) (k : α) (v : β) :
    pyDictMem (pyDictSet m k v) k = true := by
  induction m with
  | nil => simp [pyDictSet, pyDictMem]
  | cons hd tl ih =>
    obtain ⟨k1, v1⟩ := hd
    by_cases hk : k1 = k
    · subst hk
      simp [pyDictSet, pyDictMem]
    · simp [pyDictSet, pyDictMem, hk, ih]

/-- Looking up a key just set yields the value just stored. -/
theorem pyDictGet_pyDictSet {α β : Type} [DecidableEq α]
    (m : List (α × β)) (k : α) (v : β) :
    pyDictGet (pyDictSet m k v) k = some v := by
  induction m with
  | nil => simp [pyDictSet, pyDictGet]
  | cons hd tl ih =>
    obtain ⟨k1, v1⟩ := hd
    by_cases hk : k1 = k
    · subst hk
      simp [pyDictSet, pyDictGet]
    · simp [pyDictSet, pyDictGet, hk, ih]

/-- `override2str` never raises on a string value. -/
theorem override2str_isOk (k s : String) :
    ∃ r, override2str k (PyScalar.str s) = Except.ok r := by
  cases h : pyLiteralEvalNumOrBool s with
  | none => exact ⟨k ++ "=" ++ pyStrip s, by simp [override2str, h]⟩
  | some lit =>
    cases lit with
    | int n => exact ⟨k ++ "=" ++ toString n, by simp [override2str, h]⟩
    | bool b => exact ⟨k ++ "=" ++ (if b then "true" else "false"), by simp [override2str, h]⟩

/-- An override loop iteration with a string sub-key and a sub-value of an
accepted type (string, boolean, number or `None`) never raises. -/
theorem processOverrideItem_ok (om : List (String × String)) (k : String) (v : PyScalar)
    (hv : v ≠ PyScalar.other) :
    ∃ om1, processOverrideItem om (PyScalar.str k) v = (om1, Option.none) := by
  cases v with
  | none => exact ⟨_, rfl⟩
  | str s =>
    obtain ⟨r, hr⟩ := override2str_isOk k s
    exact ⟨pyDictSet om k r, by simp [processOverrideItem, hr]⟩
  | int n => exact ⟨_, rfl⟩
  | bool b => exact ⟨_, rfl⟩
  | other => exact absurd rfl hv

/-- Stripping a string of whitespace characters only yields the empty string. -/
theorem pyStrip_all_space (s : String) (h : ∀ c ∈ s.data, pyIsSpace c = true) :
    pyStrip s = "" := by
  unfold pyStrip
  have h1 : s.data.dropWhile pyIsSpace = [] := List.dropWhile_eq_nil_iff.mpr h
  rw [h1]
  rfl

/-! ## Claims -/

/-- A concrete execution descriptor used as input for witnesses. -/
def sampleData : ModelExecutionData :=
  { cmd_path := "/tmp/run"
    cmd_model_name := "M"
    cmd_prefix_list := []
    cmd_model_executable := "/tmp/run/M"
    cmd_args := ["-override=a=4"]
    cmd_result_file := "/tmp/run/M.mat"
    cmd_timeout := 10 }

/-- Claim C1: for every execution descriptor whose child process exits with
code 0 but produces nonempty (after stripping) stderr output, `run()` raises
`ModelExecutionException` carrying the captured stderr instead of returning
the exit code. -/
theorem C1_zero_exit_nonempty_stderr_raises (d : ModelExecutionData) (out err : String)
    (h : pyStrip err ≠ "") :
    (d.run (SubprocessResult.completed 0 out err)).1 =
      RunOutcome.modelExecutionException
        ("Error running model executable " ++ pyReprStrList (d.get_cmd).1 ++ ": " ++ pyStrip err) := by
  simp [ModelExecutionData.run, h]

/-- Witness for C1 at a concrete descriptor and stderr text. -/
theorem C1_zero_exit_nonempty_stderr_raises_witness :
    (sampleData.run (SubprocessResult.completed 0 "" " boom ")).1 =
      RunOutcome.modelExecutionException
        ("Error running model executable " ++ pyReprStrList (sampleData.get_cmd).1 ++ ": " ++
          pyStrip " boom ") :=
  C1_zero_exit_nonempty_stderr_raises sampleData "" " boom " (by decide)

/-- Claim C2: the two concrete scenarios of the spec: after
`args_set({override: {b: 2, a: 4}, noRestart: None, noEventEmit: None})` the
serialized arguments are `[-noEventEmit, -noRestart, -override=a=4,b=2]`, and
after a subsequent `args_set({override: {b: None}})` they are
`[-noEventEmit, -noRestart, -override=a=4]`. -/
theorem C2_concrete_scenarios :
    (args_set ⟨[], []⟩
        [(PyScalar.str "override",
            PyArgVal.dict [(PyScalar.str "b", PyScalar.int 2), (PyScalar.str "a", PyScalar.int 4)]),
         (PyScalar.str "noRestart", PyArgVal.scalar PyScalar.none),
         (PyScalar.str "noEventEmit", PyArgVal.scalar PyScalar.none)]).2 = Option.none ∧
    get_cmd_args (args_set ⟨[], []⟩
        [(PyScalar.str "override",
            PyArgVal.dict [(PyScalar.str "b", PyScalar.int 2), (PyScalar.str "a", PyScalar.int 4)]),
         (PyScalar.str "noRestart", PyArgVal.scalar PyScalar.none),
         (PyScalar.str "noEventEmit", PyArgVal.scalar PyScalar.none)]).1 =
      ["-noEventEmit", "-noRestart", "-override=a=4,b=2"] ∧
    (args_set (args_set ⟨[], []⟩
        [(PyScalar.str "override",
            PyArgVal.dict [(PyScalar.str "b", PyScalar.int 2), (PyScalar.str "a", PyScalar.int 4)]),
         (PyScalar.str "noRestart", PyArgVal.scalar PyScalar.none),
         (PyScalar.str "noEventEmit", PyArgVal.scalar PyScalar.none)]).1
        [(PyScalar.str "override", PyArgVal.dict [(PyScalar.str "b", PyScalar.none)])]).2 =
      Option.none ∧
    get_cmd_args (args_set (args_set ⟨[], []⟩
        [(PyScalar.str "override",
            PyArgVal.dict [(PyScalar.str "b", PyScalar.int 2), (PyScalar.str "a", PyScalar.int 4)]),
         (PyScalar.str "noRestart", PyArgVal.scalar PyScalar.none),
         (PyScalar.str "noEventEmit", PyArgVal.scalar PyScalar.none)]).1
        [(PyScalar.str "override", PyArgVal.dict [(PyScalar.str "b", PyScalar.none)])]).1 =
      ["-noEventEmit", "-noRestart", "-override=a=4"] := by
  decide

/-- Claim C6 is false on the code as stated, because `subprocess.run` raises
`FileNotFoundError` when the executable file does not exist, and the `try`
block of `run()` only catches `TimeoutExpired` and `CalledProcessError`: the
spawn failure propagates uncaught instead of being converted to
`ModelExecutionException`. -/
theorem C6_counterexample :
    (sampleData.run (SubprocessResult.fileNotFound "No such file or directory")).1 =
      RunOutcome.uncaughtError "FileNotFoundError" "No such file or directory" ∧
    ((sampleData.run (SubprocessResult.fileNotFound "No such file or directory")).1).isModelExecutionException
      = false := by
  decide

/-- Claim C6 (amended): when the executable file does not exist, `run()`
propagates the spawn failure `FileNotFoundError` unchanged — a different
exception class than the `ModelExecutionException` used for the timeout,
nonzero-exit and nonempty-stderr failures. -/
theorem C6_missing_executable_uncaught (d : ModelExecutionData) (m s : String) :
    (d.run (SubprocessResult.fileNotFound m)).1 = RunOutcome.uncaughtError "FileNotFoundError" m ∧
    (d.run (SubprocessResult.fileNotFound m)).1 ≠ RunOutcome.modelExecutionException s := by
  refine ⟨by simp [ModelExecutionData.run], by simp [ModelExecutionData.run]⟩

/-- Claim C7 is a bug in the code: `get_cmd()` binds `cmdl` to the prefix
list object and extends it in place, so the first call mutates the
`cmd_` + `prefix` field to the full command line and a second call returns the
executable and arguments twice. -/
theorem C7_get_cmd_mutates :
    (sampleData.get_cmd).1 = ["/tmp/run/M", "-override=a=4"] ∧
    (sampleData.get_cmd).2.cmd_prefix_list = ["/tmp/run/M", "-override=a=4"] ∧
    (sampleData.get_cmd).2.cmd_prefix_list ≠ sampleData.cmd_prefix_list ∧
    ((sampleData.get_cmd).2.get_cmd).1 ≠ (sampleData.get_cmd).1 ∧
    ((sampleData.get_cmd).2.get_cmd).1 =
      ["/tmp/run/M", "-override=a=4", "/tmp/run/M", "-override=a=4"] := by
  decide

/-- Claim C10: stderr is stripped before the failure check, so a child
process that exits 0 and writes only whitespace to stderr makes `run()`
return the exit code instead of raising. -/
theorem C10_whitespace_stderr_returns (d : ModelExecutionData) (out err : String)
    (h : ∀ c ∈ err.data, pyIsSpace c = true) :
    (d.run (SubprocessResult.completed 0 out err)).1 = RunOutcome.ok 0 := by
  have hs : pyStrip err = "" := pyStrip_all_space err h
  simp [ModelExecutionData.run, hs]

/-- Witness for C10: a bare newline on stderr. -/
theorem C10_whitespace_stderr_returns_witness :
    (sampleData.run (SubprocessResult.completed 0 "" "\n")).1 = RunOutcome.ok 0 :=
  C10_whitespace_stderr_returns sampleData "" "\n" (by decide)

/-- Evaluation of `arg_set` on an `override` dict whose processing raises no
exception: the override dict is replaced by the processed one, and the
`override` argument is stored as the sorted comma-join of its values. -/
theorem arg_set_override_ok (st : ModelExecutionCmdState)
    (items : List (PyScalar × PyScalar)) (om : List (String × String))
    (h : processOverrideItems st.arg_override items = (om, Option.none)) :
    arg_set st (PyScalar.str "override") (PyArgVal.dict items) =
      ({ args := pyDictSet st.args "override"
            (some (String.intercalate "," (pySorted (om.map (fun e => e.2))))),
         arg_override := om }, Option.none) := by
  have hov : pyStrip "override" = "override" := by decide
  simp [arg_set, hov, h]

/-- Claim C3: override merging is associative across calls: setting
`{a: v1}` and then `{b: v2}` on the override argument leaves exactly the same
state (both the stored `override` argument string and the override dict) as
the single call setting `{a: v1, b: v2}`. -/
theorem C3_override_merge_associative (st : ModelExecutionCmdState) (a b : String)
    (v1 v2 : PyScalar) (_hab : a ≠ b) (hv1 : v1 ≠ PyScalar.other) (hv2 : v2 ≠ PyScalar.other) :
    (arg_set st (PyScalar.str "override") (PyArgVal.dict [(PyScalar.str a, v1)])).2 =
      Option.none ∧
    (arg_set (arg_set st (PyScalar.str "override") (PyArgVal.dict [(PyScalar.str a, v1)])).1
        (PyScalar.str "override") (PyArgVal.dict [(PyScalar.str b, v2)])).2 = Option.none ∧
    (arg_set st (PyScalar.str "override")
        (PyArgVal.dict [(PyScalar.str a, v1), (PyScalar.str b, v2)])).2 = Option.none ∧
    (arg_set (arg_set st (PyScalar.str "override") (PyArgVal.dict [(PyScalar.str a, v1)])).1
        (PyScalar.str "override") (PyArgVal.dict [(PyScalar.str b, v2)])).1 =
      (arg_set st (PyScalar.str "override")
        (PyArgVal.dict [(PyScalar.str a, v1), (PyScalar.str b, v2)])).1 := by
  obtain ⟨om1, h1⟩ := processOverrideItem_ok st.arg_override a v1 hv1
  obtain ⟨om2, h2⟩ := processOverrideItem_ok om1 b v2 hv2
  have hs1 : processOverrideItems st.arg_override [(PyScalar.str a, v1)] = (om1, Option.none) := by
    simp [processOverrideItems, h1]
  have hs2 : processOverrideItems om1 [(PyScalar.str b, v2)] = (om2, Option.none) := by
    simp [processOverrideItems, h2]
  have hs12 : processOverrideItems st.arg_override
      [(PyScalar.str a, v1), (PyScalar.str b, v2)] = (om2, Option.none) := by
    simp [processOverrideItems, h1, h2]
  have e1 := arg_set_override_ok st [(PyScalar.str a, v1)] om1 hs1
  have e12 := arg_set_override_ok st [(PyScalar.str a, v1), (PyScalar.str b, v2)] om2 hs12
  rw [e1, e12]
  have e2 := arg_set_override_ok
      ⟨pyDictSet st.args "override"
          (some (String.intercalate "," (pySorted (om1.map (fun e => e.2))))), om1⟩
      [(PyScalar.str b, v2)] om2 hs2
  rw [e2]
  simp [pyDictSet_pyDictSet]

/-- Witness for C3 at a fresh model with `{a: 1}` then `{b: 2}`. -/
theorem C3_override_merge_associative_witness :
    (arg_set (arg_set ⟨[], []⟩ (PyScalar.str "override")
          (PyArgVal.dict [(PyScalar.str "a", PyScalar.int 1)])).1
        (PyScalar.str "override") (PyArgVal.dict [(PyScalar.str "b", PyScalar.int 2)])).1 =
      (arg_set ⟨[], []⟩ (PyScalar.str "override")
        (PyArgVal.dict [(PyScalar.str "a", PyScalar.int 1), (PyScalar.str "b", PyScalar.int 2)])).1 :=
  (C3_override_merge_associative ⟨[], []⟩ "a" "b" (PyScalar.int 1) (PyScalar.int 2)
    (by decide) (by decide) (by decide)).2.2.2

/-- Claim C4 is false as stated: an `override` dict that mixes a valid entry
before an invalid one raises only after the valid entry has already been
merged into the override dict, so the stored override map is not what it was
before the failed call. -/
theorem C4_counterexample :
    ((arg_set ⟨[], []⟩ (PyScalar.str "override")
        (PyArgVal.dict [(PyScalar.str "a", PyScalar.int 1),
                        (PyScalar.str "b", PyScalar.other)])).2).isSome = true ∧
    (arg_set ⟨[], []⟩ (PyScalar.str "override")
        (PyArgVal.dict [(PyScalar.str "a", PyScalar.int 1),
                        (PyScalar.str "b", PyScalar.other)])).1.arg_override = [("a", "a=1")] := by
  decide

/-- Claim C4 (amended): when `arg_set` raises, the stored argument map
`_args` is always exactly what it was before the call; for a non-string key
(whatever the value, mappings included), for an invalid scalar value, and
for a mapping value given to a non-override key the whole state is
unchanged; and for a mapping given to the override key the override map
after the exception is exactly what the sub-entry loop left behind, i.e.
the sub-entries processed before the invalid one survive. -/
theorem C4_amended_atomicity (st : ModelExecutionCmdState) (key : PyScalar) (val : PyArgVal)
    (e : String) (h : (arg_set st key val).2 = some e) :
    (arg_set st key val).1.args = st.args ∧
    ((∀ k0, key ≠ PyScalar.str k0) → (arg_set st key val).1 = st) ∧
    (∀ v, val = PyArgVal.scalar v → (arg_set st key val).1 = st) ∧
    (∀ k0 items, key = PyScalar.str k0 → val = PyArgVal.dict items →
      pyStrip k0 ≠ "override" → (arg_set st key val).1 = st) ∧
    (∀ k0 items, key = PyScalar.str k0 → val = PyArgVal.dict items →
      pyStrip k0 = "override" →
      (arg_set st key val).1.arg_override = (processOverrideItems st.arg_override items).1) := by
  cases key with
  | str k0 =>
    cases val with
    | dict items =>
      refine ⟨?_, ?_, ?_, ?_, ?_⟩
      · by_cases hk : pyStrip k0 = "override"
        · rcases hpo : processOverrideItems st.arg_override items with ⟨om, err⟩
          cases err with
          | none => exact absurd h (by simp [arg_set, hk, hpo])
          | some e1 => simp [arg_set, hk, hpo]
        · simp [arg_set, hk]
      · intro hne
        exact absurd rfl (hne k0)
      · intro v hv
        exact PyArgVal.noConfusion hv
      · intro k1 items1 hkeq hveq hkov
        injection hkeq with h01
        subst h01
        simp [arg_set, hkov]
      · intro k1 items1 hkeq hveq hkov
        injection hkeq with h01
        subst h01
        injection hveq with hi1
        subst hi1
        rcases hpo : processOverrideItems st.arg_override items with ⟨om, err⟩
        cases err with
        | none => exact absurd h (by simp [arg_set, hkov, hpo])
        | some e1 => simp [arg_set, hkov, hpo]
    | scalar v =>
      cases v with
      | none => exact absurd h (by simp [arg_set])
      | str s => exact absurd h (by simp [arg_set])
      | int n => exact absurd h (by simp [arg_set])
      | bool b => exact absurd h (by simp [arg_set])
      | other =>
        refine ⟨rfl, fun hne => absurd rfl (hne k0), fun v hv => rfl, ?_, ?_⟩
        · intro k1 items hkeq hveq hkov
          exact PyArgVal.noConfusion hveq
        · intro k1 items hkeq hveq hkov
          exact PyArgVal.noConfusion hveq
  | none =>
    exact ⟨rfl, fun _ => rfl, fun v hv => rfl,
      fun k1 items hkeq => PyScalar.noConfusion hkeq,
      fun k1 items hkeq => PyScalar.noConfusion hkeq⟩
  | int n =>
    exact ⟨rfl, fun _ => rfl, fun v hv => rfl,
      fun k1 items hkeq => PyScalar.noConfusion hkeq,
      fun k1 items hkeq => PyScalar.noConfusion hkeq⟩
  | bool b =>
    exact ⟨rfl, fun _ => rfl, fun v hv => rfl,
      fun k1 items hkeq => PyScalar.noConfusion hkeq,
      fun k1 items hkeq => PyScalar.noConfusion hkeq⟩
  | other =>
    exact ⟨rfl, fun _ => rfl, fun v hv => rfl,
      fun k1 items hkeq => PyScalar.noConfusion hkeq,
      fun k1 items hkeq => PyScalar.noConfusion hkeq⟩

/-- Witness for the amended C4: a non-string key raises and leaves the
argument map unchanged. -/
theorem C4_amended_atomicity_witness :
    (arg_set ⟨[], []⟩ (PyScalar.int 0) (PyArgVal.scalar PyScalar.none)).1.args =
      ([] : List (String × Option String)) :=
  (C4_amended_atomicity ⟨[], []⟩ (PyScalar.int 0) (PyArgVal.scalar PyScalar.none)
    "Invalid argument key" (by decide)).1

/-- Claim C5 is false on the code: there is no emptiness check on the
trimmed key, so `arg_set` with an empty key raises nothing and stores the
argument under the empty string. -/
theorem C5_counterexample :
    (arg_set ⟨[], []⟩ (PyScalar.str "") (PyArgVal.scalar PyScalar.none)).2 = Option.none ∧
    (arg_set ⟨[], []⟩ (PyScalar.str "") (PyArgVal.scalar PyScalar.none)).1.args =
      [("", Option.none)] := by
  decide

/-- Claim C5 (amended): `arg_set` trims the key but accepts a key that is
empty (or whitespace-only, hence empty after trimming) for every scalar
value: no exception is raised and the argument is stored under the empty
string key.  Only non-string keys are rejected. -/
theorem C5_amended_empty_key_accepted (st : ModelExecutionCmdState) (k0 : String) (v : PyScalar)
    (hk : pyStrip k0 = "") (hv : v ≠ PyScalar.other) :
    (arg_set st (PyScalar.str k0) (PyArgVal.scalar v)).2 = Option.none ∧
    pyDictMem (arg_set st (PyScalar.str k0) (PyArgVal.scalar v)).1.args "" = true := by
  cases v with
  | none => exact ⟨by simp [arg_set], by simp [arg_set, hk, pyDictMem_pyDictSet]⟩
  | str s => exact ⟨by simp [arg_set], by simp [arg_set, hk, pyDictMem_pyDictSet]⟩
  | int n => exact ⟨by simp [arg_set], by simp [arg_set, hk, pyDictMem_pyDictSet]⟩
  | bool b => exact ⟨by simp [arg_set], by simp [arg_set, hk, pyDictMem_pyDictSet]⟩
  | other => exact absurd rfl hv

/-- Witness for the amended C5: a whitespace-only key with a number value. -/
theorem C5_amended_empty_key_accepted_witness :
    (arg_set ⟨[], []⟩ (PyScalar.str " ") (PyArgVal.scalar (PyScalar.int 3))).2 = Option.none ∧
    pyDictMem (arg_set ⟨[], []⟩ (PyScalar.str " ")
        (PyArgVal.scalar (PyScalar.int 3))).1.args "" = true :=
  C5_amended_empty_key_accepted ⟨[], []⟩ " " (PyScalar.int 3) (by decide) (by decide)

/-- Closed form of the send retry loop when every attempt reports the
transient would-block condition: the loop raises with one send per unit of
fuel and one sleep of `timeout / 50` between consecutive attempts. -/
theorem sendRetryLoop_allFail (ready : Nat → Bool) (t : Rat) (h : ∀ n, ready n = false) :
    ∀ (fuel sends sleeps : Nat) (st : Rat), 1 ≤ fuel →
      sendRetryLoop ready t sends sleeps st fuel =
        { raised := true, sends := sends + fuel, sleeps := sleeps + (fuel - 1),
          sleepTime := st + ((fuel - 1 : Nat) : Rat) * (t / 50) } := by
  intro fuel
  induction fuel with
  | zero => intro sends sleeps st hf; exact absurd hf (by omega)
  | succ f ih =>
    intro sends sleeps st _
    by_cases hf : f = 0
    · subst hf
      simp [sendRetryLoop, h]
    · have h1 : 1 ≤ f := by omega
      simp only [sendRetryLoop, h, Bool.false_eq_true, if_false, hf, ite_false]
      rw [ih (sends + 1) (sleeps + 1) (st + t / 50) h1]
      simp only [SendLoopOut.mk.injEq]
      refine ⟨trivial, by omega, by omega, ?_⟩
      rw [Nat.cast_sub h1]
      push_cast
      ring

/-- Claim C8: with the engine process alive and the socket reporting the
transient would-block condition on every non-blocking send, the send phase of
`sendExpression` raises the transport error after exactly 50 send attempts —
not before and not after — having slept `timeout / 50` between consecutive
attempts (49 sleeps in total). -/
theorem C8_transport_retry_budget (ready : Nat → Bool) (timeout : Rat)
    (h : ∀ n, ready n = false) :
    sendExpressionSendPhase true ready timeout =
      SendExprOutcome.transportError 50 49 (49 * (timeout / 50)) := by
  have hl := sendRetryLoop_allFail ready timeout h 50 0 0 0 (by omega)
  simp only [sendExpressionSendPhase, if_true, hl]
  norm_num

/-- A socket that is never ready to receive: every send attempt would block. -/
def neverReady : Nat → Bool := fun _ => false

/-- Witness for C8 with a concrete timeout of 10. -/
theorem C8_transport_retry_budget_witness :
    sendExpressionSendPhase true neverReady 10 =
      SendExprOutcome.transportError 50 49 (49 * ((10 : Rat) / 50)) :=
  C8_transport_retry_budget neverReady 10 (fun _ => rfl)

/-- Claim C9: in a read-only session, `ask` never serves `getErrorString`
from the cache (the transport is always used for it); any other question is
served from the cache with no transport interaction when its
`(question, option, decode-mode)` tuple is stored, and on a miss the
transport result is stored under that tuple before being returned, so that
the same `ask` repeated is then served from the cache. -/
theorem C9_readonly_cache_policy {α : Type} (cache : List (AskKey × α))
    (sendExpr : String → Bool → Except String α) (question : String)
    (opt : Option String) (parsed : Bool) (v r : α) :
    (ask true cache sendExpr "getErrorString" opt parsed).transportUsed = true ∧
    (question ≠ "getErrorString" → pyDictGet cache (question, opt, parsed) = some v →
      ask true cache sendExpr question opt parsed =
        { result := Except.ok v, cache := cache, transportUsed := false }) ∧
    (question ≠ "getErrorString" → pyDictGet cache (question, opt, parsed) = Option.none →
      sendExpr (buildExpression question opt) parsed = Except.ok r →
      ask true cache sendExpr question opt parsed =
        { result := Except.ok r, cache := pyDictSet cache (question, opt, parsed) r,
          transportUsed := true } ∧
      ask true (pyDictSet cache (question, opt, parsed) r) sendExpr question opt parsed =
        { result := Except.ok r, cache := pyDictSet cache (question, opt, parsed) r,
          transportUsed := false }) := by
  refine ⟨?_, ?_, ?_⟩
  · unfold ask
    cases hse : sendExpr (buildExpression "getErrorString" opt) parsed <;> simp [hse]
  · intro hq hget
    simp [ask, hq, hget]
  · intro hq hget hse
    constructor
    · simp [ask, hq, hget, hse]
    · simp [ask, hq, pyDictGet_pyDictSet]

/-- A transport oracle that always answers successfully with `7`. -/
def constSendOk : String → Bool → Except String Nat := fun _ _ => Except.ok 7

/-- Witness for C9: `getErrorString` uses the transport on an empty cache; a
cached `isModel` answer is served with no transport; a missed `isModel`
answer is fetched, stored, and then served from the cache. -/
theorem C9_readonly_cache_policy_witness :
    (ask true ([] : List (AskKey × Nat)) constSendOk "getErrorString" Option.none true).transportUsed
      = true ∧
    ask true [((("isModel", Option.none, true) : AskKey), (5 : Nat))] constSendOk
        "isModel" Option.none true =
      { result := Except.ok 5,
        cache := [((("isModel", Option.none, true) : AskKey), (5 : Nat))],
        transportUsed := false } ∧
    (ask true ([] : List (AskKey × Nat)) constSendOk "isModel" Option.none true =
      { result := Except.ok 7,
        cache := pyDictSet [] (("isModel", Option.none, true) : AskKey) (7 : Nat),
        transportUsed := true } ∧
     ask true (pyDictSet [] (("isModel", Option.none, true) : AskKey) (7 : Nat)) constSendOk
        "isModel" Option.none true =
      { result := Except.ok 7,
        cache := pyDictSet [] (("isModel", Option.none, true) : AskKey) (7 : Nat),
        transportUsed := false }) :=
  ⟨(C9_readonly_cache_policy ([] : List (AskKey × Nat)) constSendOk "isModel"
      Option.none true 5 7).1,
   (C9_readonly_cache_policy [((("isModel", Option.none, true) : AskKey), (5 : Nat))] constSendOk
      "isModel" Option.none true 5 7).2.1 (by decide) (by decide),
   (C9_readonly_cache_policy ([] : List (AskKey × Nat)) constSendOk "isModel"
      Option.none true 5 7).2.2 (by decide) rfl rfl⟩

end OMPython
